import Mathlib

/-
Shallow embedding of the request-generation and dispatch core of the
rpc-perf load generator (two config trees, the ping / http2 / momento
driver tasks, and the tokio workload generator), together with theorems
settling the frozen claims C1..C10 about it.

Conventions:
  * machine integers are Nat with explicit `% 2 ^ 32` where Rust casts
    to u32; Rust `saturating_sub` on unsigned ints is Nat subtraction;
  * the PRNG is modelled as a stream of draws `Nat → Nat`; the external
    rand-crate samplers (Alphanumeric, Uniform, WeightedAliasIndex) and
    the zipf crate are modelled by their documented supports: an
    Alphanumeric draw is a byte of the 62-character alphabet, a
    `Uniform::new(lo, hi)` sample lies in [lo, hi), a
    `ZipfDistribution::new(n, s)` sample is a rank in [1, n], and a
    weighted alias sample over k weights is an index in [0, k);
  * durations are in nanoseconds.
-/

namespace RpcPerf

/-- ASCII codes of the 62-character alphanumeric alphabet sampled by the
rand crate distribution `Alphanumeric` (A-Z, a-z, 0-9). -/
def alnumAlphabet : List Nat :=
  (List.range 26).map (fun i => 65 + i) ++
    (List.range 26).map (fun i => 97 + i) ++
      (List.range 10).map (fun i => 48 + i)

/-- Model of one `rng.sample(Alphanumeric)` call: the raw draw is reduced
onto the 62-character alphabet. -/
def alnumByte (draw : Nat) : Nat :=
  alnumAlphabet.getD (draw % 62) 65

/-- Fuelled digit extraction; with `n ≤ fuel` it computes the decimal
digits of `n`, most significant first. -/
def natDigitsAux (fuel n : Nat) : List Nat :=
  match fuel with
  | 0 => [n]
  | f + 1 => if n < 10 then [n] else natDigitsAux f (n / 10) ++ [n % 10]

/-- Decimal digits of a natural number, most significant first (the digit
sequence produced by Rust decimal formatting of an unsigned integer). -/
def natDigits (n : Nat) : List Nat :=
  natDigitsAux n n

/-- ASCII bytes of the decimal rendering of `n`. -/
def digitsAscii (n : Nat) : List Nat :=
  (natDigits n).map (fun d => d + 48)

/-- Model of Rust `format!("\x7b:0>len$\x7d", n)` for an unsigned integer:
the decimal rendering left-padded with ASCII zeros to width `width`
(never truncated). -/
def zeroPadAscii (n width : Nat) : List Nat :=
  List.replicate (width - (digitsAscii n).length) 48 ++ digitsAscii n

/-- Value of a list of ASCII bytes read as a decimal numeral. -/
def decodeDecimal (bs : List Nat) : Nat :=
  bs.foldl (fun a d => 10 * a + (d - 48)) 0

/-- Truncating cast to `u32` (Rust `as u32`). -/
def u32cast (n : Nat) : Nat := n % 2 ^ 32

theorem natDigitsAux_length_le (fuel : Nat) :
    ∀ n w : Nat, n ≤ fuel → 0 < w → n < 10 ^ w →
      (natDigitsAux fuel n).length ≤ w := by
  induction fuel with
  | zero =>
      intro n w _hle hw _hn
      simpa [natDigitsAux] using hw
  | succ f ih =>
      intro n w hle hw hn
      rw [natDigitsAux]
      split
      · simpa using hw
      · rename_i h
        have h10 : 10 ≤ n := by omega
        have hw2 : 2 ≤ w := by
          by_contra hcon
          have hw1 : w = 1 := by omega
          rw [hw1] at hn
          omega
        have hdiv : n / 10 < 10 ^ (w - 1) := by
          have hpow := pow_succ 10 (w - 1)
          have hw1 : w - 1 + 1 = w := by omega
          rw [hw1] at hpow
          rw [hpow] at hn
          omega
        have hrec := ih (n / 10) (w - 1) (by omega) (by omega) hdiv
        simp only [List.length_append, List.length_cons, List.length_nil]
        omega

theorem natDigits_length_le (n w : Nat) (hw : 0 < w) (hn : n < 10 ^ w) :
    (natDigits n).length ≤ w :=
  natDigitsAux_length_le n n w le_rfl hw hn

theorem natDigitsAux_foldl (fuel : Nat) :
    ∀ n a : Nat, n ≤ fuel →
      ((natDigitsAux fuel n).map (fun d => d + 48)).foldl
          (fun a d => 10 * a + (d - 48)) a =
        a * 10 ^ (natDigitsAux fuel n).length + n := by
  induction fuel with
  | zero =>
      intro n a hle
      have hn : n = 0 := by omega
      subst hn
      simp [natDigitsAux, Nat.mul_comm]
  | succ f ih =>
      intro n a hle
      rw [natDigitsAux]
      split
      · rename_i h
        simp only [List.map_cons, List.map_nil, List.foldl_cons,
          List.foldl_nil, List.length_cons, List.length_nil]
        omega
      · rename_i h
        rw [List.map_append, List.foldl_append]
        have hrec := ih (n / 10) a (by omega)
        rw [hrec]
        simp only [List.map_cons, List.map_nil, List.foldl_cons,
          List.foldl_nil, List.length_append, List.length_cons,
          List.length_nil]
        have hmod : n % 10 + 48 - 48 = n % 10 := by omega
        rw [hmod, pow_succ]
        have := Nat.div_add_mod n 10
        ring_nf
        omega

theorem digitsAscii_foldl (n : Nat) :
    ∀ a : Nat,
      (digitsAscii n).foldl (fun a d => 10 * a + (d - 48)) a =
        a * 10 ^ (natDigits n).length + n := by
  intro a
  unfold digitsAscii natDigits
  exact natDigitsAux_foldl n n a le_rfl

theorem decodeDecimal_digitsAscii (n : Nat) :
    decodeDecimal (digitsAscii n) = n := by
  unfold decodeDecimal
  rw [digitsAscii_foldl]
  simp

theorem decodeDecimal_pad (k : Nat) (bs : List Nat) :
    decodeDecimal (List.replicate k 48 ++ bs) = decodeDecimal bs := by
  induction k with
  | zero => simp
  | succ k ihk =>
      unfold decodeDecimal at *
      simpa using ihk

theorem decodeDecimal_zeroPadAscii (n width : Nat) :
    decodeDecimal (zeroPadAscii n width) = n := by
  unfold zeroPadAscii
  rw [decodeDecimal_pad, decodeDecimal_digitsAscii]

theorem zeroPadAscii_length (n width : Nat)
    (h : (digitsAscii n).length ≤ width) :
    (zeroPadAscii n width).length = width := by
  unfold zeroPadAscii
  simp only [List.length_append, List.length_replicate]
  omega

/-- Field type tag of the config trees (`FieldType` in `config_file`):
keys and values are either random alphanumeric text or zero-padded
decimal renderings of a `u32`. -/
inductive FieldType
  | alphanumeric
  | u32
  deriving Repr, DecidableEq

/-- Key distribution of a keyspace (`KeyDistribution` in both config
trees): either `Uniform::new(lo, hi)` or `ZipfDistribution::new(n, s)`.
The sampling algorithms live in external crates; only their documented
supports matter here, so a sample is the raw rng draw reduced into the
support: a uniform sample lies in [lo, hi) and a zipf rank in [1, n]. -/
inductive KeyDistribution
  | uniform (lo hi : Nat)
  | zipf (n : Nat)
  deriving Repr, DecidableEq

/-- Model of `KeyDistribution::sample` (dispatches to the underlying
external-crate sampler). -/
def KeyDistribution.sample (d : KeyDistribution) (draw : Nat) : Nat :=
  match d with
  | .uniform lo hi => lo + draw % (hi - lo)
  | .zipf n => 1 + draw % n

/-- Model of one `WeightedAliasIndex` sample over `weights`: an index in
[0, weights.length) (the alias-table algorithm is in the rand crate; only
its support matters). -/
def aliasSample (weights : List Nat) (draw : Nat) : Nat :=
  draw % weights.length

/-- Value descriptor of a keyspace (`Value` in `config_file`). -/
structure ValueConf where
  length : Nat
  cardinality : Nat
  field_type : FieldType
  weight : Nat
  deriving Repr, DecidableEq

namespace OldTree

/-- Keyspace of the older config tree (`src/config.rs`), restricted to
the fields its sampling methods read. `value_dist` is `Option`al there:
a keyspace with an empty `values` list gets `none`. Alias tables are
carried as their weight lists. -/
structure Keyspace where
  length : Nat
  cardinality : Nat
  key_type : FieldType
  key_distribution : KeyDistribution
  values : List ValueConf
  value_dist : Option (List Nat)
  deriving Repr, DecidableEq

/-- Model of `Keyspace::generate_key` in the older tree
(`src/config.rs` lines 71-78). The incoming buffer is resized to
`self.length()` and every byte is overwritten with an `Alphanumeric`
sample, so the buffer contents are irrelevant; note that this version
never consults `key_type` or `key_distribution`. -/
def Keyspace.generate_key (ks : Keyspace) (rng : Nat → Nat)
    (_key : List Nat) : List Nat :=
  (List.range ks.length).map (fun i => alnumByte (rng i))

/-- Model of `Keyspace::generate_value` in the older tree
(`src/config.rs` lines 105-122): when a value distribution exists, a
descriptor is sampled and that many `Alphanumeric` bytes are produced;
when `value_dist` is `None` the incoming buffer is truncated to length
zero and returned. -/
def Keyspace.generate_value (ks : Keyspace) (rng : Nat → Nat)
    (draw : Nat) (_value : List Nat) : List Nat :=
  match ks.value_dist with
  | some ws =>
      let value_idx := aliasSample ws draw
      let value_conf := ks.values.getD value_idx
        { length := 0, cardinality := 0, field_type := .alphanumeric,
          weight := 0 }
      (List.range value_conf.length).map (fun i => alnumByte (rng i))
  | none => []

end OldTree

namespace NewTree

/-- Keyspace of the newer config tree (`src/config/mod.rs`), restricted
to the fields its key-generation method reads; here `value_dist` is not
optional. -/
structure Keyspace where
  length : Nat
  cardinality : Nat
  key_type : FieldType
  key_distribution : KeyDistribution
  values : List ValueConf
  value_dist : List Nat
  deriving Repr, DecidableEq

/-- Model of `Keyspace::generate_key` in the newer tree
(`src/config/mod.rs` lines 76-90): an `Alphanumeric` key is `length`
alphabet samples; a `U32` key is the decimal rendering of
`key_distribution.sample(rng) as u32`, left-padded with ASCII zeros to
width `length`. -/
def Keyspace.generate_key (ks : Keyspace) (rng : Nat → Nat) : List Nat :=
  match ks.key_type with
  | .alphanumeric => (List.range ks.length).map (fun i => alnumByte (rng i))
  | .u32 => zeroPadAscii (u32cast (ks.key_distribution.sample (rng 0))) ks.length

/-- Construction failures of the newer tree `Config::new`
(`src/config/mod.rs` lines 158-251). The source aborts the process
(fatal or unwrap failure); the abort reasons are reified as error
values. -/
inductive ConfigError
  | aliasInvalid
  | noValuesForKeyspace
  | noEndpoints
  deriving Repr, DecidableEq

/-- Model of `WeightedAliasIndex::new(weights).unwrap()`: the rand crate
constructor errs on an empty weight list or a zero total weight, which
makes the `unwrap` abort. -/
def aliasNew (weights : List Nat) : Except ConfigError (List Nat) :=
  if weights.isEmpty then .error .aliasInvalid
  else if weights.foldl (· + ·) 0 = 0 then .error .aliasInvalid
  else .ok weights

/-- Keyspace section of a parsed config file, restricted to what
`Config::new` in the newer tree reads. Commands and inner keys are
carried as weight lists; `key_dist_zipf` selects the zipf model (the
f64 exponent only parameterises the external sampler and is not
modelled). -/
structure KeyspaceFile where
  length : Nat
  weight : Nat
  cardinality : Nat
  key_type : FieldType
  key_dist_zipf : Bool
  command_weights : List Nat
  inner_key_weights : List Nat
  values : List ValueConf
  deriving Repr, DecidableEq

/-- Parsed config file, restricted to what the newer `Config::new`
validates. -/
structure ConfigFile where
  keyspaces : List KeyspaceFile
  endpoints : List Nat
  deriving Repr, DecidableEq

/-- Result of the keyspace construction loop body of the newer
`Config::new` (only the parts the claims mention are retained). -/
structure BuiltKeyspace where
  length : Nat
  weight : Nat
  cardinality : Nat
  key_type : FieldType
  key_distribution : KeyDistribution
  command_dist : List Nat
  inner_key_dist : Option (List Nat)
  values : List ValueConf
  value_dist : List Nat
  deriving Repr, DecidableEq

/-- Inner-key alias construction of the newer `Config::new`
(`src/config/mod.rs` lines 167-177): `None` when the inner-key list is
empty, otherwise a `WeightedAliasIndex` whose `unwrap` may abort. -/
def innerKeyDist (k : KeyspaceFile) : Except ConfigError (Option (List Nat)) :=
  if k.inner_key_weights.isEmpty then .ok none
  else
    match aliasNew k.inner_key_weights with
    | .error e => .error e
    | .ok ws => .ok (some ws)

/-- Loop body of the newer `Config::new` (`src/config/mod.rs` lines
166-231), in source order: inner-key alias (optional), command alias,
then the values check - an empty `values` list aborts with
`no values configured for keyspace` - then the value alias and the key
distribution. -/
def buildKeyspace (k : KeyspaceFile) : Except ConfigError BuiltKeyspace :=
  match innerKeyDist k with
  | .error e => .error e
  | .ok inner_key_dist =>
    match aliasNew k.command_weights with
    | .error e => .error e
    | .ok command_dist =>
      if k.values.isEmpty then .error .noValuesForKeyspace
      else
        match aliasNew (k.values.map (fun v => v.weight)) with
        | .error e => .error e
        | .ok value_dist =>
          .ok
            { length := k.length
              weight := k.weight
              cardinality := k.cardinality
              key_type := k.key_type
              key_distribution :=
                if k.key_dist_zipf then KeyDistribution.zipf k.cardinality
                else KeyDistribution.uniform 0 k.cardinality
              command_dist := command_dist
              inner_key_dist := inner_key_dist
              values := k.values
              value_dist := value_dist }

/-- Sequencing of the per-keyspace loop: the first aborting keyspace
aborts the whole construction. -/
def buildKeyspaces : List KeyspaceFile → Except ConfigError (List BuiltKeyspace)
  | [] => .ok []
  | k :: rest =>
    match buildKeyspace k with
    | .error e => .error e
    | .ok b =>
      match buildKeyspaces rest with
      | .error e => .error e
      | .ok bs => .ok (b :: bs)

/-- Config of the newer tree, restricted to the validated parts. -/
structure Config where
  keyspaces : List BuiltKeyspace
  keyspace_dist : List Nat
  endpoints : List Nat
  deriving Repr, DecidableEq

/-- Model of the newer tree `Config::new` (`src/config/mod.rs` lines
158-251): build every keyspace, build the keyspace alias from the
weights, and reject an empty endpoint list. -/
def Config.new (f : ConfigFile) : Except ConfigError Config :=
  match buildKeyspaces f.keyspaces with
  | .error e => .error e
  | .ok keyspaces =>
    match aliasNew (keyspaces.map (fun k => k.weight)) with
    | .error e => .error e
    | .ok keyspace_dist =>
      if f.endpoints.isEmpty then .error .noEndpoints
      else
        .ok { keyspaces := keyspaces, keyspace_dist := keyspace_dist,
              endpoints := f.endpoints }

end NewTree

/-- Work items pulled by the driver tasks, restricted to the payloads the
modelled drivers inspect (`WorkItem` in the execution tree). -/
inductive WorkItem
  | get
  | set
  | ping
  | reconnect
  | hashSet (fields : Nat)
  | hashMultiGet (fields : Nat)
  | other
  deriving Repr, DecidableEq

/-- Snapshot of the monotonic counters the modelled drivers touch
(the global metrics of `src/metrics.rs`); `response_latency` counts the
samples recorded into the response-latency heatmap. -/
structure Counters where
  connect : Nat := 0
  connect_ex : Nat := 0
  connect_timeout : Nat := 0
  session : Nat := 0
  session_closed_client : Nat := 0
  session_closed_server : Nat := 0
  request : Nat := 0
  request_ok : Nat := 0
  request_reconnect : Nat := 0
  request_unsupported : Nat := 0
  response_ok : Nat := 0
  response_ex : Nat := 0
  response_timeout : Nat := 0
  get : Nat := 0
  get_ok : Nat := 0
  get_ex : Nat := 0
  get_key_hit : Nat := 0
  get_key_miss : Nat := 0
  set : Nat := 0
  set_stored : Nat := 0
  set_ex : Nat := 0
  ping_ok : Nat := 0
  ping_ex : Nat := 0
  hash_set : Nat := 0
  hash_set_stored : Nat := 0
  hash_set_ex : Nat := 0
  hash_get : Nat := 0
  hash_get_ex : Nat := 0
  hash_get_field_hit : Nat := 0
  hash_get_field_miss : Nat := 0
  response_latency : Nat := 0
  deriving Repr, DecidableEq

/-- Counters with every field zero (process start). -/
def Counters.zero : Counters := {}

/-- Request section of the typed config (`request.timeout` in
nanoseconds). -/
structure RequestCfg where
  timeout : Nat
  deriving Repr, DecidableEq

/-- Connection section of the typed config (`connection.timeout` in
nanoseconds). -/
structure ConnectionCfg where
  timeout : Nat
  deriving Repr, DecidableEq

/-- Typed config handed to the driver tasks, restricted to the fields
they read. -/
structure Config where
  connection : ConnectionCfg
  request : RequestCfg
  deriving Repr, DecidableEq

/-- Abnormal task returns: every modelled early `return`/`?` path of a
driver task resolves its future to an error. -/
inductive ExitKind
  | channelClosed
  | connectErr
  | writeErr
  deriving Repr, DecidableEq

/-- Effect of one driver-loop iteration: the counters afterwards, the
transport the task still owns (`none` = dropped), whether the iteration
slept 100 ms before retrying, and whether the task returned. -/
structure StepOut where
  counters : Counters
  transport : Option Nat
  slept100 : Bool
  exited : Option ExitKind
  deriving Repr, DecidableEq

namespace Ping

/-- Parse result of the incremental ping response parser: a complete
response, more bytes needed (the `WouldBlock` error kind, carrying the
total nanoseconds elapsed since the request started when the driver
observes it), or a fatal parse error. -/
inductive ParseRes
  | ok
  | wouldBlock (elapsed : Nat)
  | err
  deriving Repr, DecidableEq

/-- One observed iteration of the ping read loop: the tokio timeout
fired, the socket read failed, or it returned `n` bytes whose parse gave
`p`. -/
inductive ReadEv
  | tmo
  | rerr
  | rok (n : Nat) (p : ParseRes)
  deriving Repr, DecidableEq

/-- Outcome of the ping read loop, as matched at
`src/execution/tokio/drivers/ping.rs` lines 108-147: `Ok(Ok(_))`,
`Ok(Err(_))`, or `Err(_)`; `pending` is the model artifact for an event
trace that ends before the loop breaks. -/
inductive LoopRes
  | ok
  | ex
  | timeout
  | pending
  deriving Repr, DecidableEq

/-- Initial per-request read budget of the ping driver
(`src/execution/tokio/drivers/ping.rs` line 69): the literal
`200_000_000` nanoseconds. -/
def initialBudget : Nat := 200000000

/-- Model of the ping driver read loop (`ping.rs` lines 70-104). On a
`WouldBlock` parse the budget becomes
`remaining_time.saturating_sub(start.elapsed())` - the whole elapsed
time is deducted from the current remainder - and a zero budget breaks
with a timeout. -/
def pingLoop (remaining : Nat) : List ReadEv → LoopRes
  | [] => .pending
  | ev :: rest =>
    match ev with
    | .tmo => .timeout
    | .rerr => .ex
    | .rok _ p =>
      match p with
      | .ok => .ok
      | .err => .ex
      | .wouldBlock elapsed =>
          let remaining2 := remaining - elapsed
          if remaining2 = 0 then .timeout else pingLoop remaining2 rest

/-- Connect result for the ping driver, which opens a plain
`TcpStream::connect` with no timeout. -/
inductive ConnEv
  | ok (t : Nat)
  | err
  deriving Repr, DecidableEq

/-- Result of the `write_all` call sending the composed request. -/
inductive WriteEv
  | ok
  | err
  deriving Repr, DecidableEq

/-- Environment events consumed by one iteration of the ping task loop:
the connect result (read only when no transport is live), the received
work item (`none` = channel closed), the write result, and the read
loop events. -/
structure IterEv where
  conn : ConnEv
  recv : Option WorkItem
  write : WriteEv
  reads : List ReadEv
  deriving Repr, DecidableEq

/-- Body of the ping task after a transport is live (`ping.rs` lines
39-147): take the stream, pull work, compose (non-`Ping` items silently
`continue` with the stream already taken, so the connection drops),
send, run the read loop, then classify: ok restores the stream and
records a latency sample; exception and timeout leave it dropped. -/
def workPhase (c : Counters) (s : Nat) (ev : IterEv) : StepOut :=
  match ev.recv with
  | none =>
      { counters := c, transport := none, slept100 := false,
        exited := some .channelClosed }
  | some item =>
    match item with
    | .ping =>
      match ev.write with
      | .err =>
          { counters := c, transport := none, slept100 := false,
            exited := some .writeErr }
      | .ok =>
        match pingLoop initialBudget ev.reads with
        | .ok =>
            { counters :=
                { c with ping_ok := c.ping_ok + 1,
                         response_ok := c.response_ok + 1,
                         response_latency := c.response_latency + 1 },
              transport := some s, slept100 := false, exited := none }
        | .ex =>
            { counters := { c with ping_ex := c.ping_ex + 1 },
              transport := none, slept100 := false, exited := none }
        | .timeout =>
            { counters :=
                { c with response_timeout := c.response_timeout + 1 },
              transport := none, slept100 := false, exited := none }
        | .pending =>
            { counters := c, transport := none, slept100 := false,
              exited := none }
    | _ =>
        { counters := c, transport := none, slept100 := false,
          exited := none }

/-- One iteration of the ping task loop (`ping.rs` lines 31-150). With
no live transport, `CONNECT` is incremented and
`TcpStream::connect(..).await?` either yields a stream or propagates
the error out of the task. -/
def step (c : Counters) (stream : Option Nat) (ev : IterEv) : StepOut :=
  match stream with
  | some s => workPhase c s ev
  | none =>
    let c2 := { c with connect := c.connect + 1 }
    match ev.conn with
    | .err =>
        { counters := c2, transport := none, slept100 := false,
          exited := some .connectErr }
    | .ok t => workPhase c2 t ev

end Ping

namespace Http2

/-- Connect-phase result for the http driver (`src/drivers/http2.rs`
lines 33-67): the connect under `connection.timeout` succeeds and the
handshake yields a sender, or the connect errs, or the connect timeout
fires, or the handshake errs. -/
inductive ConnEv
  | ok (t : Nat)
  | connErr
  | connTimeout
  | handshakeErr
  deriving Repr, DecidableEq

/-- Result of `send_request` when it completes within the request
timeout: a response (carrying whether it has a `Connection: close`
header) or an error. -/
inductive SendEv
  | resp (close : Bool)
  | sendErr
  deriving Repr, DecidableEq

/-- Environment events consumed by one iteration of the http task loop.
`arrival` is the nanoseconds until the `send_request` future completes;
the tokio timeout fires when it exceeds `request.timeout`. `ready` is
whether the trailing `s.ready()` check succeeds. -/
structure IterEv where
  conn : ConnEv
  recv : Option WorkItem
  arrival : Nat
  send : SendEv
  ready : Bool
  deriving Repr, DecidableEq

/-- Body of the http task once a sender is live (`http2.rs` lines
70-159): pull work (`REQUEST` on every item), dispatch `Reconnect` and
unsupported items, otherwise send the `Get` under
`timeout(config.request().timeout(), ..)` and classify. -/
def workPhase (cfg : Config) (c : Counters) (s : Nat) (ev : IterEv) :
    StepOut :=
  match ev.recv with
  | none =>
      { counters := c, transport := none, slept100 := false,
        exited := some .channelClosed }
  | some item =>
    let c := { c with request := c.request + 1 }
    match item with
    | .reconnect =>
        { counters :=
            { c with
                session_closed_client := c.session_closed_client + 1,
                request_reconnect := c.request_reconnect + 1 },
          transport := none, slept100 := false, exited := none }
    | .get =>
      let c := { c with request_ok := c.request_ok + 1 }
      if cfg.request.timeout < ev.arrival then
        { counters :=
            { c with
                response_timeout := c.response_timeout + 1,
                session_closed_client := c.session_closed_client + 1 },
          transport := none, slept100 := false, exited := none }
      else
        match ev.send with
        | .sendErr =>
            { counters :=
                { c with
                    get_ex := c.get_ex + 1,
                    session_closed_client := c.session_closed_client + 1 },
              transport := none, slept100 := false, exited := none }
        | .resp close =>
          let c :=
            { c with get_ok := c.get_ok + 1,
                     response_ok := c.response_ok + 1,
                     response_latency := c.response_latency + 1 }
          let c :=
            if close then
              { c with
                  session_closed_server := c.session_closed_server + 1 }
            else c
          if ev.ready then
            { counters := c, transport := some s, slept100 := false,
              exited := none }
          else
            { counters := c, transport := none, slept100 := false,
              exited := none }
    | _ =>
        { counters :=
            { c with request_unsupported := c.request_unsupported + 1 },
          transport := some s, slept100 := false, exited := none }

/-- One iteration of the http task loop (`http2.rs` lines 32-160). With
no live sender, `CONNECT` is incremented and the connect/handshake is
attempted: each failure increments its exception counter, sleeps
100 ms, and continues; success increments `SESSION` and falls through
to the work phase. -/
def step (cfg : Config) (c : Counters) (sender : Option Nat)
    (ev : IterEv) : StepOut :=
  match sender with
  | some s => workPhase cfg c s ev
  | none =>
    let c := { c with connect := c.connect + 1 }
    match ev.conn with
    | .connErr =>
        { counters := { c with connect_ex := c.connect_ex + 1 },
          transport := none, slept100 := true, exited := none }
    | .connTimeout =>
        { counters :=
            { c with connect_timeout := c.connect_timeout + 1 },
          transport := none, slept100 := true, exited := none }
    | .handshakeErr =>
        { counters := { c with connect_ex := c.connect_ex + 1 },
          transport := none, slept100 := true, exited := none }
    | .ok t =>
        workPhase cfg { c with session := c.session + 1 } t ev

end Http2

namespace Momento

/-- Per-arm RPC timeout of the momento driver: every arm of
`src/execution/tokio/drivers/momento.rs` wraps its call in
`timeout(Duration::from_millis(200), ..)`. -/
def rpcBudget : Nat := 200000000

/-- Result classification shared by all momento arms
(`ResponseError` plus success). -/
inductive MomResult
  | ok
  | exception
  | timeout
  deriving Repr, DecidableEq

/-- Final per-item classification of the momento task (`momento.rs`
lines 284-295): ok records a latency sample and `RESPONSE_OK`;
exceptions and timeouts record only their counters. -/
def classify (c : Counters) (r : MomResult) : Counters :=
  match r with
  | .ok =>
      { c with response_ok := c.response_ok + 1,
               response_latency := c.response_latency + 1 }
  | .exception => { c with response_ex := c.response_ex + 1 }
  | .timeout =>
      { c with response_timeout := c.response_timeout + 1 }

/-- Completion of a momento `get` RPC (when it completes within the
budget): a server status or a transport-level error (`Ok(Err(_))`). -/
inductive GetEv
  | hit
  | miss
  | errStatus
  | transportErr
  deriving Repr, DecidableEq

/-- The `WorkItem::Get` arm of the momento task (`momento.rs` lines
56-84), `arrival` being the nanoseconds until the RPC future
completes. -/
def getArm (c : Counters) (arrival : Nat) (ev : GetEv) :
    Counters × MomResult :=
  let c := { c with get := c.get + 1 }
  if rpcBudget < arrival then (c, .timeout)
  else
    match ev with
    | .hit => ({ c with get_key_hit := c.get_key_hit + 1 }, .ok)
    | .miss => ({ c with get_key_miss := c.get_key_miss + 1 }, .ok)
    | .errStatus => ({ c with get_ex := c.get_ex + 1 }, .exception)
    | .transportErr => ({ c with get_ex := c.get_ex + 1 }, .exception)

/-- Completion of a momento `dictionary_set` RPC: a server status (`OK`
or `ERROR`) or a transport-level error. -/
inductive HashSetEv
  | okStatus
  | errorStatus
  | transportErr
  deriving Repr, DecidableEq

/-- The `WorkItem::HashSet` arm of the momento task (`momento.rs` lines
242-276): an `OK` status adds the field count to `HASH_SET_STORED`, an
`ERROR` status increments `HASH_SET_EX`, and a transport-level error
increments `HASH_GET_EX` (the counter named in the source at line
271). -/
def hashSetArm (c : Counters) (fields : Nat) (arrival : Nat)
    (ev : HashSetEv) : Counters × MomResult :=
  let c := { c with hash_set := c.hash_set + 1 }
  if rpcBudget < arrival then (c, .timeout)
  else
    match ev with
    | .okStatus =>
        ({ c with hash_set_stored := c.hash_set_stored + fields }, .ok)
    | .errorStatus =>
        ({ c with hash_set_ex := c.hash_set_ex + 1 }, .exception)
    | .transportErr =>
        ({ c with hash_get_ex := c.hash_get_ex + 1 }, .exception)

/-- One `Get` item processed end to end by the momento task (arm plus
final classification); the task owns the client channel throughout, so
no transport state appears. -/
def getStep (c : Counters) (arrival : Nat) (ev : GetEv) : Counters :=
  let (c, r) := getArm c arrival ev
  classify c r

/-- One `HashSet` item processed end to end by the momento task. -/
def hashSetStep (c : Counters) (fields : Nat) (arrival : Nat)
    (ev : HashSetEv) : Counters :=
  let (c, r) := hashSetArm c fields arrival ev
  classify c r

end Momento

namespace Generator

/-- Observable events of the workload generator
(`src/execution/tokio/generators/get.rs`): awaiting one timer tick, or
submitting one sampled `Get` work item to the queue. -/
inductive Ev
  | tick
  | send
  deriving Repr, DecidableEq

/-- One iteration of the rated loop (`get.rs` lines 26-32): await a
tick, then sample and submit exactly `quanta` items back to back. -/
def ratedIter (quanta : Nat) : List Ev :=
  Ev.tick :: List.replicate quanta Ev.send

/-- Rated generator loop unrolled from iteration index `i`: while the
`RUNNING` flag reads true at the top of the loop, run one iteration;
the first false read returns. `fuel` bounds the unrolling and is a
model artifact (a shutdown trace is eventually false). -/
def ratedRunAux (running : Nat → Bool) (quanta : Nat) :
    Nat → Nat → List Ev
  | _, 0 => []
  | i, fuel + 1 =>
    if running i then ratedIter quanta ++ ratedRunAux running quanta (i + 1) fuel
    else []

/-- Event trace of the rated generator (`get.rs` lines 24-34). -/
def ratedRun (running : Nat → Bool) (quanta fuel : Nat) : List Ev :=
  ratedRunAux running quanta 0 fuel

/-- Unrated generator loop unrolled from iteration index `i`
(`get.rs` lines 14-22): while `RUNNING` reads true, sample and submit
one item. -/
def unratedRunAux (running : Nat → Bool) : Nat → Nat → List Ev
  | _, 0 => []
  | i, fuel + 1 =>
    if running i then Ev.send :: unratedRunAux running (i + 1) fuel
    else []

/-- Event trace of the unrated generator. -/
def unratedRun (running : Nat → Bool) (fuel : Nat) : List Ev :=
  unratedRunAux running 0 fuel

/-- Number of submitted items in a generator trace. -/
def sendCount (es : List Ev) : Nat :=
  (es.filter (fun e => e = Ev.send)).length

/-- Number of tick awaits in a generator trace. -/
def tickCount (es : List Ev) : Nat :=
  (es.filter (fun e => e = Ev.tick)).length

end Generator

/-! ### Claim C1: shape of generated keys -/

/-- RNG stream drawing 7 at every position. -/
def c1rng : Nat → Nat := fun _ => 7

/-- RNG stream drawing 0 at every position. -/
def c1rngZero : Nat → Nat := fun _ => 0

/-- Concrete `U32` keyspace in the older tree. -/
def c1ksOld : OldTree.Keyspace :=
  { length := 3, cardinality := 10, key_type := .u32,
    key_distribution := .uniform 0 10, values := [], value_dist := none }

/-- Concrete `U32` keyspace in the newer tree. -/
def c1ksNew : NewTree.Keyspace :=
  { length := 3, cardinality := 10, key_type := .u32,
    key_distribution := .uniform 0 10,
    values := [{ length := 16, cardinality := 0,
                 field_type := .alphanumeric, weight := 1 }],
    value_dist := [1] }

/-- C1 counterexample: the older tree `generate_key` (`src/config.rs`
lines 71-78) ignores `key_type`; on a `U32` keyspace satisfying the
claimed precondition it returns alphanumeric bytes, not the
zero-left-padded decimal rendering of `key_distribution.sample(rng)`
(here it returns `AAA` where the rendering is `000`). -/
theorem c1_old_generate_key_counterexample :
    c1ksOld.key_type = FieldType.u32 ∧
    c1ksOld.cardinality ≤ 10 ^ c1ksOld.length ∧
    OldTree.Keyspace.generate_key c1ksOld c1rngZero [] ≠
      zeroPadAscii
        (u32cast (c1ksOld.key_distribution.sample (c1rngZero 0)))
        c1ksOld.length := by
  decide

/-- C1 amended: every key of the older tree `generate_key`, and every
`Alphanumeric` key of the newer tree, has length exactly
`keyspace.length`; in the newer tree with `key_type = U32` the key is
the zero-left-padded decimal rendering of
`key_distribution.sample(rng)`, and whenever that sample is below
`cardinality` (always the case for the `Uniform(0..cardinality)`
distribution) with `cardinality ≤ 10^length`, the key has length
exactly `keyspace.length` and decodes as an integer in
`[0, cardinality)`. The older tree ignores `key_type` and produces
alphanumeric bytes even for `U32` keyspaces. -/
theorem c1_generate_key_amended :
    (∀ (ksOld : OldTree.Keyspace) (rngO : Nat → Nat) (buf : List Nat),
      (OldTree.Keyspace.generate_key ksOld rngO buf).length = ksOld.length)
    ∧ (∀ (ks : NewTree.Keyspace) (rng : Nat → Nat),
        ks.key_type = FieldType.alphanumeric →
          (NewTree.Keyspace.generate_key ks rng).length = ks.length)
    ∧ (∀ (card draw : Nat), 0 < card →
        KeyDistribution.sample (.uniform 0 card) draw < card)
    ∧ (∀ (ks : NewTree.Keyspace) (rng : Nat → Nat),
        ks.key_type = FieldType.u32 →
        ks.key_distribution.sample (rng 0) < ks.cardinality →
        ks.cardinality ≤ 10 ^ ks.length →
        ks.cardinality ≤ 2 ^ 32 →
        0 < ks.length →
          NewTree.Keyspace.generate_key ks rng =
              zeroPadAscii (ks.key_distribution.sample (rng 0)) ks.length
            ∧ (NewTree.Keyspace.generate_key ks rng).length = ks.length
            ∧ decodeDecimal (NewTree.Keyspace.generate_key ks rng) =
                ks.key_distribution.sample (rng 0)
            ∧ ks.key_distribution.sample (rng 0) < ks.cardinality) := by
  refine ⟨?_, ?_, ?_, ?_⟩
  · intro ksOld rngO buf
    simp [OldTree.Keyspace.generate_key]
  · intro ks rng h
    simp [NewTree.Keyspace.generate_key, h]
  · intro card draw h
    simpa [KeyDistribution.sample] using Nat.mod_lt draw h
  · intro ks rng htype hsample hcard hcard32 hlen
    set n : Nat := ks.key_distribution.sample (rng 0) with hn
    have hcast : u32cast n = n := by
      unfold u32cast
      exact Nat.mod_eq_of_lt (lt_of_lt_of_le hsample hcard32)
    have hkey : NewTree.Keyspace.generate_key ks rng =
        zeroPadAscii n ks.length := by
      unfold NewTree.Keyspace.generate_key
      rw [htype, ← hn, hcast]
    have hdlen : (digitsAscii n).length ≤ ks.length := by
      unfold digitsAscii
      rw [List.length_map]
      exact natDigits_length_le n ks.length hlen
        (lt_of_lt_of_le hsample hcard)
    refine ⟨hkey, ?_, ?_, hsample⟩
    · rw [hkey]
      exact zeroPadAscii_length n ks.length hdlen
    · rw [hkey]
      exact decodeDecimal_zeroPadAscii n ks.length

/-- C1 witness: the amended statement evaluated at the concrete `U32`
keyspaces above with an RNG drawing 7, where the newer tree yields the
key `007` decoding to 7 and the older tree yields a 3-byte key. -/
theorem c1_generate_key_amended_witness :
    NewTree.Keyspace.generate_key c1ksNew c1rng = [48, 48, 55]
    ∧ decodeDecimal (NewTree.Keyspace.generate_key c1ksNew c1rng) = 7
    ∧ (NewTree.Keyspace.generate_key c1ksNew c1rng).length = 3
    ∧ (OldTree.Keyspace.generate_key c1ksOld c1rng []).length = 3 := by
  obtain ⟨h1, _h2, _h3, h4⟩ := c1_generate_key_amended
  have h5 := h4 c1ksNew c1rng rfl (by decide) (by decide) (by decide)
    (by decide)
  exact ⟨h5.1.trans (by decide), h5.2.2.1.trans (by decide),
    h5.2.1.trans (by decide), h1 c1ksOld c1rng []⟩

/-! ### Claim C9: empty value lists -/

/-- Construction of a keyspace whose `values` list is empty aborts in
the newer tree (`src/config/mod.rs` lines 188-192). -/
theorem buildKeyspace_values_empty (k : NewTree.KeyspaceFile)
    (h : k.values = []) : (NewTree.buildKeyspace k).isOk = false := by
  have hv : k.values.isEmpty = true := by simp [h]
  unfold NewTree.buildKeyspace
  cases hik : NewTree.innerKeyDist k with
  | error e => rfl
  | ok inner =>
      cases hcw : NewTree.aliasNew k.command_weights with
      | error e => rfl
      | ok cw =>
          simp [hv]
          rfl

/-- An aborting keyspace aborts the whole construction loop. -/
theorem buildKeyspaces_mem_error (l : List NewTree.KeyspaceFile) :
    ∀ k ∈ l, (NewTree.buildKeyspace k).isOk = false →
      (NewTree.buildKeyspaces l).isOk = false := by
  induction l with
  | nil => intro k hk; cases hk
  | cons a rest ih =>
      intro k hk hbad
      unfold NewTree.buildKeyspaces
      rcases List.mem_cons.mp hk with heq | hmem
      · subst heq
        cases hba : NewTree.buildKeyspace k with
        | error e => rfl
        | ok b => rw [hba] at hbad; cases hbad
      · cases hba : NewTree.buildKeyspace a with
        | error e => rfl
        | ok b =>
            have := ih k hmem hbad
            cases hbs : NewTree.buildKeyspaces rest with
            | error e => rfl
            | ok bs => rw [hbs] at this; cases this

/-- Concrete old-tree keyspace with no configured values. -/
def c9ksOld : OldTree.Keyspace :=
  { length := 8, cardinality := 10, key_type := .u32,
    key_distribution := .uniform 0 10, values := [], value_dist := none }

/-- RNG stream drawing 3 at every position. -/
def c9rng : Nat → Nat := fun _ => 3

/-- Concrete new-tree keyspace file section with an empty value list. -/
def c9ks : NewTree.KeyspaceFile :=
  { length := 8, weight := 1, cardinality := 10, key_type := .u32,
    key_dist_zipf := false, command_weights := [1],
    inner_key_weights := [], values := [] }

/-- Concrete new-tree config file containing `c9ks`. -/
def c9file : NewTree.ConfigFile :=
  { keyspaces := [c9ks], endpoints := [1] }

/-- C9: in the older tree, `generate_value` returns an empty byte vector
for every RNG state whenever `value_dist` is `None` (`src/config.rs`
lines 105-122); in the newer tree, `Config::new` fails at construction
time when any keyspace has an empty value list (`src/config/mod.rs`
lines 182-192). -/
theorem c9_value_generation :
    (∀ (ks : OldTree.Keyspace) (rng : Nat → Nat) (draw : Nat)
        (buf : List Nat),
      ks.value_dist = none →
        OldTree.Keyspace.generate_value ks rng draw buf = [])
    ∧ (∀ (f : NewTree.ConfigFile) (k : NewTree.KeyspaceFile),
        k ∈ f.keyspaces → k.values = [] →
          (NewTree.Config.new f).isOk = false) := by
  constructor
  · intro ks rng draw buf h
    simp [OldTree.Keyspace.generate_value, h]
  · intro f k hmem hvals
    have hb := buildKeyspace_values_empty k hvals
    have hbs := buildKeyspaces_mem_error f.keyspaces k hmem hb
    unfold NewTree.Config.new
    cases hres : NewTree.buildKeyspaces f.keyspaces with
    | error e => rfl
    | ok bs => rw [hres] at hbs; cases hbs

/-- C9 witness: the concrete keyspaces above; the old tree yields an
empty value even with a non-empty incoming buffer, and the new tree
rejects the config file. -/
theorem c9_value_generation_witness :
    OldTree.Keyspace.generate_value c9ksOld c9rng 0 [9, 9] = []
    ∧ (NewTree.Config.new c9file).isOk = false := by
  obtain ⟨h1, h2⟩ := c9_value_generation
  exact ⟨h1 c9ksOld c9rng 0 [9, 9] rfl,
    h2 c9file c9ks (List.mem_cons_self c9ks []) rfl⟩

/-! ### Claim C2: ping read-loop budget recomputation -/

/-- A read trace of partial reads only: each read returns bytes whose
parse yields `WouldBlock` at the given total elapsed time. -/
def wbTrace (es : List Nat) : List Ping.ReadEv :=
  es.map (fun e => Ping.ReadEv.rok 0 (Ping.ParseRes.wouldBlock e))

/-- Budget remaining after a run of `WouldBlock` recomputations as the
code performs them: the whole elapsed time of each step is deducted
from the previous remainder (saturating); `none` means the budget
reached zero, which the loop classifies as a timeout. -/
def wbOutcome (init : Nat) : List Nat → Option Nat
  | [] => some init
  | e :: rest =>
    if init - e = 0 then none else wbOutcome (init - e) rest

/-- Config with a 200 ms request timeout (matching the ping driver's
hardcoded budget, the most charitable reading of the claim). -/
def c2cfg : Config :=
  { connection := { timeout := 100000000 },
    request := { timeout := 200000000 } }

/-- C2 counterexample: two partial reads, `WouldBlock` at 80 ms and at
150 ms total elapsed. The claimed recomputation
`remaining = timeout - elapsed` leaves 50 ms, so the claim says the
request is not yet a timeout; the code deducts the elapsed time from
the already-reduced remainder ((200-80)-150 saturates to 0) and
classifies a timeout. -/
theorem c2_budget_counterexample :
    Ping.pingLoop c2cfg.request.timeout
        (wbTrace [80000000, 150000000]) = Ping.LoopRes.timeout
    ∧ c2cfg.request.timeout - 150000000 ≠ 0 := by
  decide

/-- C2 amended: after every partial read whose parse returns
`WouldBlock`, the remaining budget becomes the previous remainder minus
the total elapsed time since the request started (saturating) - so
earlier elapsed time is deducted repeatedly, not `timeout - elapsed` -
and the initial budget is the hardcoded 200 ms constant, not
`request.timeout`; the request is classified as a timeout exactly when
this compounded remainder reaches zero. -/
theorem c2_ping_budget_amended :
    (∀ (init : Nat) (es : List Nat) (rest : List Ping.ReadEv),
      Ping.pingLoop init (wbTrace es ++ rest) =
        match wbOutcome init es with
        | none => Ping.LoopRes.timeout
        | some r => Ping.pingLoop r rest)
    ∧ Ping.initialBudget = 200000000 := by
  constructor
  · intro init es
    induction es generalizing init with
    | nil => intro rest; simp [wbTrace, wbOutcome]
    | cons e es ih =>
        intro rest
        simp only [wbTrace, List.map_cons, List.cons_append,
          Ping.pingLoop, wbOutcome]
        by_cases h : init - e = 0
        · simp [h]
        · simpa [h] using ih (init - e) rest
  · rfl

/-! ### Claim C3: which constant bounds the response await -/

/-- Config with a 300 ms request timeout. -/
def c3cfg : Config :=
  { connection := { timeout := 100000000 },
    request := { timeout := 300000000 } }

/-- C3 counterexample: with `request.timeout = 300 ms` configured, a
momento `Get` whose RPC would complete at 250 ms is classified as a
timeout - the momento driver bounds the await by its inline 200 ms
constant, not by the configured `request.timeout`. -/
theorem c3_timeout_source_counterexample :
    c3cfg.request.timeout = 300000000
    ∧ 250000000 ≤ c3cfg.request.timeout
    ∧ (Momento.getStep Counters.zero 250000000
        Momento.GetEv.hit).response_timeout = 1
    ∧ (Momento.getStep Counters.zero 250000000
        Momento.GetEv.hit).response_ok = 0 := by
  decide

/-- C3 amended: only the http driver bounds the response await by the
configured `request.timeout` (exceeding it is classified as timeout,
staying within it never is); the momento driver bounds every RPC by the
inline 200 ms constant regardless of the config, and the ping driver's
read budget starts from the same hardcoded 200 ms. -/
theorem c3_timeout_bound_amended :
    (∀ (cfg : Config) (c : Counters) (s : Nat) (ev : Http2.IterEv),
      ev.recv = some WorkItem.get →
        (cfg.request.timeout < ev.arrival →
          (Http2.workPhase cfg c s ev).counters.response_timeout =
            c.response_timeout + 1)
        ∧ (ev.arrival ≤ cfg.request.timeout →
          (Http2.workPhase cfg c s ev).counters.response_timeout =
            c.response_timeout))
    ∧ (∀ (c : Counters) (arrival : Nat) (ev : Momento.GetEv),
        (Momento.rpcBudget < arrival →
          (Momento.getStep c arrival ev).response_timeout =
            c.response_timeout + 1)
        ∧ (arrival ≤ Momento.rpcBudget →
          (Momento.getStep c arrival ev).response_timeout =
            c.response_timeout))
    ∧ Momento.rpcBudget = 200000000
    ∧ Ping.initialBudget = 200000000 := by
  refine ⟨?_, ?_, rfl, rfl⟩
  · rintro cfg c s ⟨conn, recv, arrival, send, ready⟩ hrecv
    simp only at hrecv
    subst hrecv
    constructor
    · intro h
      simp [Http2.workPhase, h]
    · intro h
      have h2 : ¬ cfg.request.timeout < arrival := not_lt.mpr h
      cases send with
      | sendErr => simp [Http2.workPhase, h2]
      | resp close =>
          cases close <;> cases ready <;>
            simp [Http2.workPhase, h2]
  · intro c arrival ev
    constructor
    · intro h
      simp [Momento.getStep, Momento.getArm, Momento.classify, h]
    · intro h
      have h2 : ¬ Momento.rpcBudget < arrival := not_lt.mpr h
      cases ev <;>
        simp [Momento.getStep, Momento.getArm, Momento.classify, h2]

/-- C3 witness: the amended statement at the 300 ms config above, an
http request arriving at 350 ms (timeout) and one at 250 ms (no
timeout), and a momento hit arriving at 100 ms (no timeout). -/
theorem c3_timeout_bound_amended_witness :
    (Http2.workPhase c3cfg Counters.zero 1
        { conn := Http2.ConnEv.ok 1, recv := some WorkItem.get,
          arrival := 350000000, send := Http2.SendEv.resp false,
          ready := true }).counters.response_timeout = 1
    ∧ (Http2.workPhase c3cfg Counters.zero 1
        { conn := Http2.ConnEv.ok 1, recv := some WorkItem.get,
          arrival := 250000000, send := Http2.SendEv.resp false,
          ready := true }).counters.response_timeout = 0
    ∧ (Momento.getStep Counters.zero 100000000
        Momento.GetEv.hit).response_timeout = 0 := by
  obtain ⟨h1, h2, _h3, _h4⟩ := c3_timeout_bound_amended
  refine ⟨?_, ?_, ?_⟩
  · exact (h1 c3cfg Counters.zero 1 _ rfl).1 (by decide)
  · exact (h1 c3cfg Counters.zero 1 _ rfl).2 (by decide)
  · exact (h2 Counters.zero 100000000 Momento.GetEv.hit).2 (by decide)

/-! ### Claim C4: connect failure handling -/

/-- The work phase of the http task never touches the `CONNECT`
counter. -/
theorem http2_workPhase_connect (cfg : Config) (c : Counters) (s : Nat)
    (ev : Http2.IterEv) :
    (Http2.workPhase cfg c s ev).counters.connect = c.connect := by
  rcases ev with ⟨conn, recv, arrival, send, ready⟩
  cases recv with
  | none => rfl
  | some item =>
    cases item with
    | get =>
        by_cases h : cfg.request.timeout < arrival
        · simp [Http2.workPhase, h]
        · cases send with
          | sendErr => simp [Http2.workPhase, h]
          | resp close =>
              cases close <;> cases ready <;> simp [Http2.workPhase, h]
    | set => rfl
    | ping => rfl
    | reconnect => rfl
    | hashSet fields => rfl
    | hashMultiGet fields => rfl
    | other => rfl

/-- Every iteration of the http task that starts without a live sender
increments `CONNECT` exactly once, whatever the connect attempt and the
rest of the iteration do. -/
theorem http2_step_none_connect (cfg : Config) (c : Counters)
    (ev : Http2.IterEv) :
    (Http2.step cfg c none ev).counters.connect = c.connect + 1 := by
  rcases ev with ⟨conn, recv, arrival, send, ready⟩
  cases conn with
  | ok t =>
      show (Http2.workPhase cfg _ t _).counters.connect = c.connect + 1
      rw [http2_workPhase_connect]
  | connErr => rfl
  | connTimeout => rfl
  | handshakeErr => rfl

/-- Environment events of a failing ping connect attempt. -/
def c4ev : Ping.IterEv :=
  { conn := Ping.ConnEv.err, recv := some WorkItem.ping,
    write := Ping.WriteEv.ok, reads := [] }

/-- C4 counterexample: a failed connect in the ping driver
(`src/execution/tokio/drivers/ping.rs` line 34, `TcpStream::connect ..
.await?`) makes the task return an error to the runtime, increments no
exception counter, and sleeps no 100 ms. -/
theorem c4_connect_error_counterexample :
    (Ping.step Counters.zero none c4ev).exited = some ExitKind.connectErr
    ∧ (Ping.step Counters.zero none c4ev).counters.connect_ex = 0
    ∧ (Ping.step Counters.zero none c4ev).counters.connect_timeout = 0
    ∧ (Ping.step Counters.zero none c4ev).slept100 = false := by
  decide

/-- C4 amended: in the http driver a failed connect increments
`CONNECT_EX`, a timed-out connect increments `CONNECT_TIMEOUT`, a
failed handshake increments `CONNECT_EX`; each failure sleeps 100 ms,
keeps the task alive, and the next iteration retries the connect
(incrementing `CONNECT` again). The ping driver instead propagates a
connect error out of the task: no exception counter, no sleep, no
retry. -/
theorem c4_connect_retry_amended :
    (∀ (cfg : Config) (c : Counters) (ev : Http2.IterEv),
      (ev.conn = Http2.ConnEv.connErr →
        Http2.step cfg c none ev =
          { counters := { c with connect := c.connect + 1,
                                 connect_ex := c.connect_ex + 1 },
            transport := none, slept100 := true, exited := none })
      ∧ (ev.conn = Http2.ConnEv.connTimeout →
        Http2.step cfg c none ev =
          { counters := { c with connect := c.connect + 1,
                                 connect_timeout := c.connect_timeout + 1 },
            transport := none, slept100 := true, exited := none })
      ∧ (ev.conn = Http2.ConnEv.handshakeErr →
        Http2.step cfg c none ev =
          { counters := { c with connect := c.connect + 1,
                                 connect_ex := c.connect_ex + 1 },
            transport := none, slept100 := true, exited := none }))
    ∧ (∀ (cfg : Config) (c : Counters) (ev ev2 : Http2.IterEv),
        ev.conn = Http2.ConnEv.connErr →
          (Http2.step cfg (Http2.step cfg c none ev).counters
              (Http2.step cfg c none ev).transport ev2).counters.connect =
            c.connect + 2)
    ∧ (∀ (c : Counters) (ev : Ping.IterEv),
        ev.conn = Ping.ConnEv.err →
          Ping.step c none ev =
            { counters := { c with connect := c.connect + 1 },
              transport := none, slept100 := false,
              exited := some ExitKind.connectErr }) := by
  refine ⟨?_, ?_, ?_⟩
  · rintro cfg c ⟨conn, recv, arrival, send, ready⟩
    refine ⟨?_, ?_, ?_⟩ <;> (intro h; simp only at h; subst h; rfl)
  · rintro cfg c ⟨conn, recv, arrival, send, ready⟩ ev2 h
    simp only at h
    subst h
    have h1 : Http2.step cfg c none
        ⟨Http2.ConnEv.connErr, recv, arrival, send, ready⟩ =
        { counters := { c with connect := c.connect + 1,
                               connect_ex := c.connect_ex + 1 },
          transport := none, slept100 := true, exited := none } := rfl
    rw [h1]
    rw [http2_step_none_connect]
  · rintro c ⟨conn, recv, write, reads⟩ h
    simp only at h
    subst h
    rfl

/-- C4 witness: the amended statement at zero counters, a concrete
connect error followed by a second iteration whose connect also fails,
and the concrete failing ping connect. -/
theorem c4_connect_retry_amended_witness :
    Http2.step c3cfg Counters.zero none
        { conn := Http2.ConnEv.connErr, recv := none, arrival := 0,
          send := Http2.SendEv.sendErr, ready := false } =
      { counters := { Counters.zero with connect := 1, connect_ex := 1 },
        transport := none, slept100 := true, exited := none }
    ∧ (Http2.step c3cfg
        (Http2.step c3cfg Counters.zero none
          { conn := Http2.ConnEv.connErr, recv := none, arrival := 0,
            send := Http2.SendEv.sendErr, ready := false }).counters
        (Http2.step c3cfg Counters.zero none
          { conn := Http2.ConnEv.connErr, recv := none, arrival := 0,
            send := Http2.SendEv.sendErr, ready := false }).transport
        { conn := Http2.ConnEv.connTimeout, recv := none, arrival := 0,
          send := Http2.SendEv.sendErr,
          ready := false }).counters.connect = 2
    ∧ Ping.step Counters.zero none c4ev =
        { counters := { Counters.zero with connect := 1 },
          transport := none, slept100 := false,
          exited := some ExitKind.connectErr } := by
  obtain ⟨h1, h2, h3⟩ := c4_connect_retry_amended
  refine ⟨(h1 c3cfg Counters.zero _).1 rfl, ?_, h3 Counters.zero c4ev rfl⟩
  exact h2 c3cfg Counters.zero _ _ rfl

/-! ### Claim C5: unsupported work items -/

/-- Commands outside the http driver's compose match (`src/drivers/
http2.rs` lines 80-100): everything except `Get` and `Reconnect`. -/
def http2Unsupported (w : WorkItem) : Bool :=
  match w with
  | .get => false
  | .reconnect => false
  | _ => true

/-- Commands outside the ping driver's compose match
(`src/execution/tokio/drivers/ping.rs` lines 51-58): everything except
`Ping` (including `Reconnect`). -/
def pingUnsupported (w : WorkItem) : Bool :=
  match w with
  | .ping => false
  | _ => true

/-- Environment events of a ping iteration pulling an unsupported
item. -/
def c5ev : Ping.IterEv :=
  { conn := Ping.ConnEv.ok 0, recv := some WorkItem.get,
    write := Ping.WriteEv.ok, reads := [] }

/-- C5 counterexample: the ping driver pulls a `Get` item (unsupported
over ping) with a live connection; it increments nothing - in
particular not `REQUEST_UNSUPPORTED` - and, having already taken the
stream out, drops the connection instead of keeping it. -/
theorem c5_unsupported_counterexample :
    (Ping.step Counters.zero (some 7) c5ev).counters.request_unsupported = 0
    ∧ (Ping.step Counters.zero (some 7) c5ev).counters = Counters.zero
    ∧ (Ping.step Counters.zero (some 7) c5ev).transport = none := by
  decide

/-- C5 amended: in the http driver an unsupported item increments
`REQUEST` and `REQUEST_UNSUPPORTED` and keeps the same live transport
for the next item; in the ping driver an unsupported item is silently
skipped - no counter moves - and the connection is dropped (the next
iteration reconnects). -/
theorem c5_unsupported_amended :
    (∀ (cfg : Config) (c : Counters) (s : Nat) (ev : Http2.IterEv)
        (item : WorkItem),
      ev.recv = some item → http2Unsupported item = true →
        Http2.step cfg c (some s) ev =
          { counters :=
              { c with request := c.request + 1,
                       request_unsupported := c.request_unsupported + 1 },
            transport := some s, slept100 := false, exited := none })
    ∧ (∀ (c : Counters) (s : Nat) (ev : Ping.IterEv) (item : WorkItem),
        ev.recv = some item → pingUnsupported item = true →
          Ping.step c (some s) ev =
            { counters := c, transport := none, slept100 := false,
              exited := none }) := by
  constructor
  · rintro cfg c s ⟨conn, recv, arrival, send, ready⟩ item h h2
    simp only at h
    subst h
    cases item with
    | get => exact absurd h2 (by decide)
    | reconnect => exact absurd h2 (by decide)
    | set => rfl
    | ping => rfl
    | hashSet fields => rfl
    | hashMultiGet fields => rfl
    | other => rfl
  · rintro c s ⟨conn, recv, write, reads⟩ item h h2
    simp only at h
    subst h
    cases item with
    | ping => exact absurd h2 (by decide)
    | get => rfl
    | set => rfl
    | reconnect => rfl
    | hashSet fields => rfl
    | hashMultiGet fields => rfl
    | other => rfl

/-- C5 witness: the amended statement at zero counters, with a `Ping`
item over http and a `Get` item over ping. -/
theorem c5_unsupported_amended_witness :
    Http2.step c3cfg Counters.zero (some 9)
        { conn := Http2.ConnEv.ok 9, recv := some WorkItem.ping,
          arrival := 0, send := Http2.SendEv.sendErr, ready := false } =
      { counters :=
          { Counters.zero with request := 1, request_unsupported := 1 },
        transport := some 9, slept100 := false, exited := none }
    ∧ Ping.step Counters.zero (some 7) c5ev =
        { counters := Counters.zero, transport := none,
          slept100 := false, exited := none } := by
  obtain ⟨h1, h2⟩ := c5_unsupported_amended
  exact ⟨h1 c3cfg Counters.zero 9 _ WorkItem.ping rfl rfl,
    h2 Counters.zero 7 c5ev WorkItem.get rfl rfl⟩

/-! ### Claim C6: Reconnect work items -/

/-- Environment events of a ping iteration pulling `Reconnect`. -/
def c6ev : Ping.IterEv :=
  { conn := Ping.ConnEv.ok 0, recv := some WorkItem.reconnect,
    write := Ping.WriteEv.ok, reads := [] }

/-- C6 counterexample: the ping driver pulls a `Reconnect` item; it
drops the transport but increments neither `SESSION_CLOSED_CLIENT` nor
`REQUEST_RECONNECT` (the item falls into the silent catch-all of the
compose match). -/
theorem c6_reconnect_counterexample :
    (Ping.step Counters.zero (some 3) c6ev).counters.session_closed_client
        = 0
    ∧ (Ping.step Counters.zero (some 3) c6ev).counters.request_reconnect
        = 0
    ∧ (Ping.step Counters.zero (some 3) c6ev).transport = none := by
  decide

/-- C6 amended: in the http driver a `Reconnect` item increments
`REQUEST`, `SESSION_CLOSED_CLIENT` and `REQUEST_RECONNECT` once each,
drops the transport, and continues; the next iteration (with no live
transport) increments `CONNECT` whatever else happens. The ping driver
treats `Reconnect` as an unsupported item: it drops the transport but
increments neither counter. -/
theorem c6_reconnect_amended :
    (∀ (cfg : Config) (c : Counters) (s : Nat) (ev : Http2.IterEv),
      ev.recv = some WorkItem.reconnect →
        Http2.step cfg c (some s) ev =
          { counters :=
              { c with request := c.request + 1,
                       session_closed_client := c.session_closed_client + 1,
                       request_reconnect := c.request_reconnect + 1 },
            transport := none, slept100 := false, exited := none })
    ∧ (∀ (cfg : Config) (c : Counters) (ev : Http2.IterEv),
        (Http2.step cfg c none ev).counters.connect = c.connect + 1)
    ∧ (∀ (c : Counters) (s : Nat) (ev : Ping.IterEv),
        ev.recv = some WorkItem.reconnect →
          Ping.step c (some s) ev =
            { counters := c, transport := none, slept100 := false,
              exited := none }) := by
  refine ⟨?_, ?_, ?_⟩
  · rintro cfg c s ⟨conn, recv, arrival, send, ready⟩ h
    simp only at h
    subst h
    rfl
  · intro cfg c ev
    exact http2_step_none_connect cfg c ev
  · rintro c s ⟨conn, recv, write, reads⟩ h
    simp only at h
    subst h
    rfl

/-- C6 witness: the amended statement at zero counters with concrete
`Reconnect` iterations over http and ping, and the follow-up connect of
the next http iteration. -/
theorem c6_reconnect_amended_witness :
    Http2.step c3cfg Counters.zero (some 4)
        { conn := Http2.ConnEv.ok 4, recv := some WorkItem.reconnect,
          arrival := 0, send := Http2.SendEv.sendErr, ready := false } =
      { counters :=
          { Counters.zero with
              request := 1, session_closed_client := 1,
              request_reconnect := 1 },
        transport := none, slept100 := false, exited := none }
    ∧ (Http2.step c3cfg Counters.zero none
        { conn := Http2.ConnEv.connErr, recv := none, arrival := 0,
          send := Http2.SendEv.sendErr,
          ready := false }).counters.connect = 1
    ∧ Ping.step Counters.zero (some 3) c6ev =
        { counters := Counters.zero, transport := none,
          slept100 := false, exited := none } := by
  obtain ⟨h1, h2, h3⟩ := c6_reconnect_amended
  exact ⟨h1 c3cfg Counters.zero 4 _ rfl, h2 c3cfg Counters.zero _,
    h3 Counters.zero 3 c6ev rfl⟩

/-! ### Claim C7: timeout outcome counters -/

/-- Environment events of a ping iteration whose read times out. -/
def c7ev : Ping.IterEv :=
  { conn := Ping.ConnEv.ok 0, recv := some WorkItem.ping,
    write := Ping.WriteEv.ok, reads := [Ping.ReadEv.tmo] }

/-- C7 counterexample: a timed-out ping request increments
`RESPONSE_TIMEOUT` but not `SESSION_CLOSED_CLIENT` (`ping.rs` lines
143-146 increment only the former). -/
theorem c7_timeout_counters_counterexample :
    (Ping.step Counters.zero (some 2) c7ev).counters.response_timeout = 1
    ∧ (Ping.step Counters.zero (some 2) c7ev).counters.session_closed_client
        = 0 := by
  decide

/-- C7 amended: on a timeout the http driver increments
`RESPONSE_TIMEOUT` and `SESSION_CLOSED_CLIENT` once each, drops its
transport, and records no latency sample; the ping driver increments
only `RESPONSE_TIMEOUT` (still dropping the transport, still no latency
sample); the momento driver increments only `RESPONSE_TIMEOUT` and
keeps its client channel (its per-item step has no transport to
drop). -/
theorem c7_timeout_counters_amended :
    (∀ (cfg : Config) (c : Counters) (s : Nat) (ev : Http2.IterEv),
      ev.recv = some WorkItem.get → cfg.request.timeout < ev.arrival →
        Http2.step cfg c (some s) ev =
          { counters :=
              { c with request := c.request + 1,
                       request_ok := c.request_ok + 1,
                       response_timeout := c.response_timeout + 1,
                       session_closed_client := c.session_closed_client + 1 },
            transport := none, slept100 := false, exited := none })
    ∧ (∀ (c : Counters) (s : Nat) (ev : Ping.IterEv),
        ev.recv = some WorkItem.ping → ev.write = Ping.WriteEv.ok →
        Ping.pingLoop Ping.initialBudget ev.reads = Ping.LoopRes.timeout →
          Ping.step c (some s) ev =
            { counters :=
                { c with response_timeout := c.response_timeout + 1 },
              transport := none, slept100 := false, exited := none })
    ∧ (∀ (c : Counters) (arrival : Nat) (ev : Momento.GetEv),
        Momento.rpcBudget < arrival →
          Momento.getStep c arrival ev =
            { c with get := c.get + 1,
                     response_timeout := c.response_timeout + 1 }) := by
  refine ⟨?_, ?_, ?_⟩
  · rintro cfg c s ⟨conn, recv, arrival, send, ready⟩ h harr
    simp only at h harr
    subst h
    simp [Http2.step, Http2.workPhase, harr]
  · rintro c s ⟨conn, recv, write, reads⟩ h hw hloop
    simp only at h hw hloop
    subst h
    subst hw
    simp [Ping.step, Ping.workPhase, hloop]
  · intro c arrival ev harr
    simp [Momento.getStep, Momento.getArm, Momento.classify, harr]

/-- C7 witness: the amended statement at zero counters with a concrete
late http response (350 ms against a 300 ms timeout), the concrete
timed-out ping read, and a momento hit arriving at 250 ms. -/
theorem c7_timeout_counters_amended_witness :
    Http2.step c3cfg Counters.zero (some 5)
        { conn := Http2.ConnEv.ok 5, recv := some WorkItem.get,
          arrival := 350000000, send := Http2.SendEv.resp false,
          ready := true } =
      { counters :=
          { Counters.zero with
              request := 1, request_ok := 1, response_timeout := 1,
              session_closed_client := 1 },
        transport := none, slept100 := false, exited := none }
    ∧ Ping.step Counters.zero (some 2) c7ev =
        { counters := { Counters.zero with response_timeout := 1 },
          transport := none, slept100 := false, exited := none }
    ∧ Momento.getStep Counters.zero 250000000 Momento.GetEv.hit =
        { Counters.zero with get := 1, response_timeout := 1 } := by
  obtain ⟨h1, h2, h3⟩ := c7_timeout_counters_amended
  exact ⟨h1 c3cfg Counters.zero 5 _ rfl (by decide),
    h2 Counters.zero 2 c7ev rfl rfl rfl,
    h3 Counters.zero 250000000 Momento.GetEv.hit (by decide)⟩

/-! ### Claim C8: generator modes and cancellation -/

/-- Unrolling the rated loop from index `i` under a monotone `RUNNING`
trace that is true exactly below `k`: the loop runs one full iteration
per true check. -/
theorem ratedRunAux_eq (running : Nat → Bool) (quanta k : Nat)
    (hr : ∀ j, running j = true ↔ j < k) :
    ∀ fuel i, k ≤ i + fuel →
      Generator.ratedRunAux running quanta i fuel =
        List.flatten (List.replicate (k - i) (Generator.ratedIter quanta)) := by
  intro fuel
  induction fuel with
  | zero =>
      intro i hk
      have hz : k - i = 0 := by omega
      simp [Generator.ratedRunAux, hz]
  | succ f ih =>
      intro i hk
      simp only [Generator.ratedRunAux]
      by_cases h : running i = true
      · have hik : i < k := (hr i).mp h
        rw [if_pos h, ih (i + 1) (by omega)]
        have hsub : k - i = (k - (i + 1)) + 1 := by omega
        rw [hsub, List.replicate_succ]
        rfl
      · have hik : ¬ i < k := fun hc => h ((hr i).mpr hc)
        have hz : k - i = 0 := by omega
        rw [if_neg h, hz]
        simp

/-- Unrolling the unrated loop: one submitted item per true check. -/
theorem unratedRunAux_eq (running : Nat → Bool) (k : Nat)
    (hr : ∀ j, running j = true ↔ j < k) :
    ∀ fuel i, k ≤ i + fuel →
      Generator.unratedRunAux running i fuel =
        List.replicate (k - i) Generator.Ev.send := by
  intro fuel
  induction fuel with
  | zero =>
      intro i hk
      have hz : k - i = 0 := by omega
      simp [Generator.unratedRunAux, hz]
  | succ f ih =>
      intro i hk
      simp only [Generator.unratedRunAux]
      by_cases h : running i = true
      · have hik : i < k := (hr i).mp h
        rw [if_pos h, ih (i + 1) (by omega)]
        have hsub : k - i = (k - (i + 1)) + 1 := by omega
        rw [hsub, List.replicate_succ]
      · have hik : ¬ i < k := fun hc => h ((hr i).mpr hc)
        have hz : k - i = 0 := by omega
        rw [if_neg h, hz]
        simp

/-- Submitted items in a block of sends. -/
theorem sendCount_replicate_send (n : Nat) :
    Generator.sendCount (List.replicate n Generator.Ev.send) = n := by
  simp [Generator.sendCount]

/-- Tick awaits in a block of sends. -/
theorem tickCount_replicate_send (n : Nat) :
    Generator.tickCount (List.replicate n Generator.Ev.send) = 0 := by
  simp [Generator.tickCount]

/-- C8: under a shutdown trace of `RUNNING` that reads true exactly for
the first `k` loop checks, the rated generator emits `k` blocks, each
one tick await followed by exactly `quanta` submissions back to back
(so each iteration submits `quanta` items and contains one tick); the
unrated generator submits exactly one item per iteration; and in either
mode the loop returns immediately at the first false check of
`RUNNING`, so at most the one tick already pending when the flag
clears is awaited. -/
theorem c8_generator_modes :
    (∀ (running : Nat → Bool) (quanta fuel k : Nat),
      (∀ i, running i = true ↔ i < k) → k ≤ fuel →
        Generator.ratedRun running quanta fuel =
          List.flatten (List.replicate k (Generator.ratedIter quanta)))
    ∧ (∀ quanta : Nat,
        Generator.sendCount (Generator.ratedIter quanta) = quanta
        ∧ Generator.tickCount (Generator.ratedIter quanta) = 1)
    ∧ (∀ (running : Nat → Bool) (fuel k : Nat),
        (∀ i, running i = true ↔ i < k) → k ≤ fuel →
          Generator.unratedRun running fuel =
            List.replicate k Generator.Ev.send)
    ∧ (∀ (running : Nat → Bool) (quanta i fuel : Nat),
        running i = false →
          Generator.ratedRunAux running quanta i fuel = [])
    ∧ (∀ (running : Nat → Bool) (i fuel : Nat),
        running i = false →
          Generator.unratedRunAux running i fuel = []) := by
  refine ⟨?_, ?_, ?_, ?_, ?_⟩
  · intro running quanta fuel k hr hk
    unfold Generator.ratedRun
    rw [ratedRunAux_eq running quanta k hr fuel 0 (by omega)]
    rw [Nat.sub_zero]
  · intro quanta
    constructor
    · simp only [Generator.sendCount, Generator.ratedIter,
        List.filter_cons]
      simp [Generator.sendCount]
    · simp only [Generator.tickCount, Generator.ratedIter,
        List.filter_cons]
      simp [Generator.tickCount]
  · intro running fuel k hr hk
    unfold Generator.unratedRun
    rw [unratedRunAux_eq running k hr fuel 0 (by omega)]
    rw [Nat.sub_zero]
  · intro running quanta i fuel h
    cases fuel with
    | zero => rfl
    | succ f => simp [Generator.ratedRunAux, h]
  · intro running i fuel h
    cases fuel with
    | zero => rfl
    | succ f => simp [Generator.unratedRunAux, h]

/-- C8 witness: a trace cleared after two checks, `quanta = 3`,
`fuel = 5`: two tick-plus-three-sends blocks in rated mode, two sends
in unrated mode, and an immediate return at a false check. -/
theorem c8_generator_modes_witness :
    Generator.ratedRun (fun i => decide (i < 2)) 3 5 =
      List.flatten (List.replicate 2 (Generator.ratedIter 3))
    ∧ Generator.sendCount (Generator.ratedIter 3) = 3
    ∧ Generator.unratedRun (fun i => decide (i < 2)) 5 =
        List.replicate 2 Generator.Ev.send
    ∧ Generator.ratedRunAux (fun i => decide (i < 2)) 3 2 9 = [] := by
  obtain ⟨h1, h2, h3, h4, _h5⟩ := c8_generator_modes
  refine ⟨h1 _ 3 5 2 ?_ (by decide), (h2 3).1, h3 _ 5 2 ?_ (by decide),
    h4 _ 3 2 9 (by decide)⟩
  · intro i
    simp
  · intro i
    simp

/-! ### Claim C10: momento HashSet exception counters -/

/-- C10: in the momento driver, a `HashSet` RPC that completes with a
transport-level error increments `HASH_GET_EX` - not `HASH_SET_EX` -
and is classified as a protocol exception (`RESPONSE_EX`, no latency
sample), while a server-reported `ERROR` status on the same command
increments `HASH_SET_EX` (`src/execution/tokio/drivers/momento.rs`
lines 242-276 and 284-295). -/
theorem c10_momento_hashset_counters :
    ∀ (c : Counters) (fields arrival : Nat),
      arrival ≤ Momento.rpcBudget →
        Momento.hashSetStep c fields arrival
            Momento.HashSetEv.transportErr =
          { c with hash_set := c.hash_set + 1,
                   hash_get_ex := c.hash_get_ex + 1,
                   response_ex := c.response_ex + 1 }
        ∧ Momento.hashSetStep c fields arrival
            Momento.HashSetEv.errorStatus =
          { c with hash_set := c.hash_set + 1,
                   hash_set_ex := c.hash_set_ex + 1,
                   response_ex := c.response_ex + 1 } := by
  intro c fields arrival h
  have h2 : ¬ Momento.rpcBudget < arrival := not_lt.mpr h
  constructor <;>
    simp [Momento.hashSetStep, Momento.hashSetArm, Momento.classify, h2]

/-- C10 witness: a `HashSet` of four fields whose RPC completes
immediately, once with a transport error and once with a server `ERROR`
status. -/
theorem c10_momento_hashset_counters_witness :
    Momento.hashSetStep Counters.zero 4 0 Momento.HashSetEv.transportErr =
      { Counters.zero with hash_set := 1, hash_get_ex := 1,
                           response_ex := 1 }
    ∧ Momento.hashSetStep Counters.zero 4 0 Momento.HashSetEv.errorStatus =
      { Counters.zero with hash_set := 1, hash_set_ex := 1,
                           response_ex := 1 } :=
  c10_momento_hashset_counters Counters.zero 4 0 (by decide)

end RpcPerf
